import Mathlib

/-!
Formal model of the run-tracking and route-accumulation engine of the
fitsocial repository (file `app/tracker.tsx`).

The TypeScript source is shallowly embedded: the pure helpers
(`haversineMeters`, `formatPace`) become functions over `ℝ`, the sampler
callback becomes a function on its state `(routeCoords, distanceMeters)`,
and the session lifecycle (`startRun`, `pauseRun`, `resumeRun`, `stopRun`,
the 1-second timer and the unmount cleanup) becomes explicit state passing
on a `TrackerState` record.  The asynchronous interleaving of in-flight
`startRun` / `resumeRun` invocations is modelled separately as a small-step
relation on an `AsyncState` that tracks the phase of every pending
invocation together with the set of live watch subscriptions.
-/

namespace Tracker

open Real

open Classical

/-- The `TrackerStatus` union type of `tracker.tsx`:
`"idle" | "running" | "paused"`. -/
inductive TrackerStatus
  | idle
  | running
  | paused
deriving DecidableEq, Repr

/-- A geographic coordinate, the `LatLng` record `{latitude, longitude}`
used throughout `tracker.tsx`. -/
structure LatLng where
  latitude : ℝ
  longitude : ℝ

/-- A map region as set by `startRun`
(`{latitude, longitude, latitudeDelta, longitudeDelta}`). -/
structure Region where
  latitude : ℝ
  longitude : ℝ
  latitudeDelta : ℝ
  longitudeDelta : ℝ

/-- The persisted `Run` record from `context/AppContext`:
`{ id: string; dateISO: string; distanceMeters: number; durationSec: number }`. -/
structure Run where
  id : String
  dateISO : String
  distanceMeters : ℝ
  durationSec : ℕ

/-- JavaScript's `Math.atan2(y, x)` over the reals (piecewise definition of
the two-argument arctangent, exactly the IEEE/ECMAScript case split for
finite arguments). -/
noncomputable def atan2 (y x : ℝ) : ℝ :=
  if 0 < x then arctan (y / x)
  else if x < 0 ∧ 0 ≤ y then arctan (y / x) + π
  else if x < 0 then arctan (y / x) - π
  else if 0 < y then π / 2
  else if y < 0 then -(π / 2)
  else 0

/-- The `toRad` helper inside `haversineMeters`:
`(deg * Math.PI) / 180`. -/
noncomputable def toRad (deg : ℝ) : ℝ := deg * π / 180

/-- Function `haversineMeters(a, b)` from `tracker.tsx` (lines 455-471), translated
term by term: `R = 6371000`, `dLat`, `dLon`, `lat1`, `lat2`, the squared
sines, `c = sinDLat*sinDLat + cos(lat1)*cos(lat2)*sinDLon*sinDLon`,
`d = 2*atan2(sqrt c, sqrt (1-c))`, result `R*d`. -/
noncomputable def haversineMeters (a b : LatLng) : ℝ :=
  let R : ℝ := 6371000
  let dLat := toRad (b.latitude - a.latitude)
  let dLon := toRad (b.longitude - a.longitude)
  let lat1 := toRad a.latitude
  let lat2 := toRad b.latitude
  let sinDLat := Real.sin (dLat / 2)
  let sinDLon := Real.sin (dLon / 2)
  let c := sinDLat * sinDLat + Real.cos lat1 * Real.cos lat2 * sinDLon * sinDLon
  let d := 2 * atan2 (Real.sqrt c) (Real.sqrt (1 - c))
  R * d

/-- The haversine great-circle formula exactly as the specification words it
(`a = sin²(Δlat/2) + cos(lat1)·cos(lat2)·sin²(Δlon/2)`,
`c = 2·atan2(√a, √(1−a))`, `distance = R·c` with `R = 6,371,000`), stated
with squares, to be compared against the source's `haversineMeters`. -/
noncomputable def haversineSpecFormula (p1 p2 : LatLng) : ℝ :=
  let R : ℝ := 6371000
  let a := Real.sin (toRad (p2.latitude - p1.latitude) / 2) ^ 2 +
    Real.cos (toRad p1.latitude) * Real.cos (toRad p2.latitude) *
      Real.sin (toRad (p2.longitude - p1.longitude) / 2) ^ 2
  let c := 2 * atan2 (Real.sqrt a) (Real.sqrt (1 - a))
  R * c

/-- The sampler callback body shared by `startRun` (lines 144-152) and
`resumeRun` (lines 183-191) of `tracker.tsx`.  Its state is the pair
`(routeCoords, distanceMeters)`.  `if (prev.length === 0) return [coord]`
and the access `prev[prev.length - 1]` are rendered by matching on
`List.getLast?`; when a last point exists, the increment is the haversine
distance from it, the distance grows only when `increment > 0`, and the
point is appended unconditionally (`[...prev, coord]`). -/
noncomputable def processCallback (s : List LatLng × ℝ) (coord : LatLng) :
    List LatLng × ℝ :=
  match s.1.getLast? with
  | none => ([coord], s.2)
  | some last =>
    let increment := haversineMeters last coord
    (s.1 ++ [coord], if 0 < increment then s.2 + increment else s.2)

/-- The screen state of `TrackerScreen` relevant to the session lifecycle:
`status`, `routeCoords`, `elapsedSec`, `distanceMeters`, `initialRegion`,
the refs `watchSubRef` (as the id of the live subscription, if any) and
`timerRef` (as a flag: is an interval timer installed), and the persisted
run collection `runs` reached through `setRuns` of the app context. -/
structure TrackerState where
  status : TrackerStatus
  routeCoords : List LatLng
  elapsedSec : ℕ
  distanceMeters : ℝ
  initialRegion : Option Region
  watchSub : Option ℕ
  timerOn : Bool
  runs : List Run

/-- Helper `clearTimer` (lines 61-66): clears the interval timer if present. -/
def clearTimer (s : TrackerState) : TrackerState :=
  { s with timerOn := false }

/-- Helper `stopLocationUpdates` (lines 68-73): removes the watch subscription held
in `watchSubRef` if present. -/
def stopLocationUpdates (s : TrackerState) : TrackerState :=
  { s with watchSub := none }

/-- Helper `resetSession` (lines 75-81): status `idle`, empty route, zero elapsed
time and distance, cleared initial region.  It touches neither the refs nor
the run collection. -/
def resetSession (s : TrackerState) : TrackerState :=
  { s with
    status := TrackerStatus.idle
    routeCoords := []
    elapsedSec := 0
    distanceMeters := 0
    initialRegion := none }

/-- Helper `startTimer` (lines 102-107): `clearTimer()` then installs a 1-second
interval incrementing `elapsedSec`. -/
def startTimer (s : TrackerState) : TrackerState :=
  { clearTimer s with timerOn := true }

/-- One firing of the interval callback installed by `startTimer`
(`setElapsedSec((prev) => prev + 1)`); a tick of wall-clock time has no
effect when no timer is installed. -/
def tick (s : TrackerState) : TrackerState :=
  if s.timerOn then { s with elapsedSec := s.elapsedSec + 1 } else s

/-- Handler `startRun` (lines 109-159) run to completion, with the results of its
awaited calls as parameters: `granted` is the outcome of
`requestLocationPermission`, `current` the coordinate returned by
`getCurrentPositionAsync`, and `subId` the subscription handle returned by
`watchPositionAsync`.  On denial it returns immediately; otherwise it sets
the route to the single initial coordinate, sets the initial region with
deltas 0.01, stores the subscription, sets status `running` and starts the
timer. -/
def startRun (granted : Bool) (current : LatLng) (subId : ℕ)
    (s : TrackerState) : TrackerState :=
  if granted = false then s
  else
    let s1 := { s with
      routeCoords := [current]
      initialRegion :=
        some ⟨current.latitude, current.longitude, 0.01, 0.01⟩ }
    startTimer { s1 with watchSub := some subId,
                         status := TrackerStatus.running }

/-- Handler `pauseRun` (lines 161-165): `stopLocationUpdates()`, `clearTimer()`,
status `paused`. -/
def pauseRun (s : TrackerState) : TrackerState :=
  { clearTimer (stopLocationUpdates s) with status := TrackerStatus.paused }

/-- Handler `resumeRun` (lines 167-198) run to completion: on permission denial it
returns immediately; otherwise it stores a fresh watch subscription, sets
status `running` and restarts the timer (route, distance and elapsed time
are left to continue from their prior values). -/
def resumeRun (granted : Bool) (subId : ℕ) (s : TrackerState) :
    TrackerState :=
  if granted = false then s
  else
    startTimer { s with watchSub := some subId,
                        status := TrackerStatus.running }

/-- Handler `stopRun` (lines 200-262) with the user's choice in the save dialog and
the identifiers produced by `Date.now()` / `new Date().toISOString()` as
parameters.  If status is `idle` it only resets.  Otherwise it removes the
subscription and timer; a route of fewer than 2 points (`!hasRoute`, where
`hasRoute = routeCoords.length > 1`) or `distanceMeters < 10` rejects the
run and resets.  Otherwise `save = true` prepends the new `Run` record
(id, dateISO, distanceMeters, durationSec := elapsedSec) to the run
collection and resets, and `save = false` (Discard) just resets. -/
noncomputable def stopRun (save : Bool) (idStr dateISO : String)
    (s : TrackerState) : TrackerState :=
  if s.status = TrackerStatus.idle then resetSession s
  else
    let s1 := clearTimer (stopLocationUpdates s)
    if ¬ 1 < s1.routeCoords.length ∨ s1.distanceMeters < 10 then
      resetSession s1
    else if save then
      let newRun : Run := ⟨idStr, dateISO, s1.distanceMeters, s1.elapsedSec⟩
      resetSession { s1 with runs := newRun :: s1.runs }
    else
      resetSession s1

/-- JavaScript's `String.prototype.padStart(2, "0")`: prepend zeros until length 2. -/
def pad2 (str : String) : String :=
  if str.length < 2 then
    String.mk (List.replicate (2 - str.length) '0') ++ str
  else str

/-- Truncation toward zero, the implicit integer conversion in
JavaScript's `%` remainder operator. -/
noncomputable def jsTrunc (x : ℝ) : ℤ :=
  if 0 ≤ x then ⌊x⌋ else -⌊-x⌋

/-- JavaScript's `%` remainder on finite numbers:
`a % b = a - b * trunc(a / b)`. -/
noncomputable def jsMod (a b : ℝ) : ℝ := a - b * jsTrunc (a / b)

/-- Function `formatPace(minPerKm)` from `tracker.tsx` (lines 446-453):
`totalSec = minPerKm * 60`, `m = Math.floor(totalSec / 60)`,
`s = Math.round(totalSec % 60)` (Mathlib's `round` is `⌊x + 1/2⌋`, exactly
`Math.round` on finite non-negative numbers), both padded with
`padStart(2, "0")` and joined by ":". -/
noncomputable def formatPace (minPerKm : ℝ) : String :=
  let totalSec := minPerKm * 60
  let m := ⌊totalSec / 60⌋
  let s := round (jsMod totalSec 60)
  let mm := pad2 (toString m)
  let ss := pad2 (toString s)
  mm ++ ":" ++ ss

/-- The `paceMinPerKm` derivation of `tracker.tsx` (line 54 and line 219):
`distanceKm > 0 ? elapsedSec / 60 / distanceKm : 0` with
`distanceKm = distanceMeters / 1000`. -/
noncomputable def paceMinPerKm (distanceMeters : ℝ) (elapsedSec : ℕ) : ℝ :=
  let distanceKm := distanceMeters / 1000
  if 0 < distanceKm then (elapsedSec : ℝ) / 60 / distanceKm else 0

/-- The initial screen state of `TrackerScreen`: status `idle`, empty
route, zero metrics, no subscription, no timer, and the (locally empty)
run collection. -/
def trackerInit : TrackerState :=
  { status := TrackerStatus.idle
    routeCoords := []
    elapsedSec := 0
    distanceMeters := 0
    initialRegion := none
    watchSub := none
    timerOn := false
    runs := [] }

/-! ### Asynchronous interleaving model

`startRun` and `resumeRun` are `async` functions with several `await`
suspension points; the single-threaded event loop may interleave other
events (button presses, resolutions of other pending promises) between the
synchronous segments of an in-flight invocation.  `AsyncState` makes each
in-flight invocation explicit as the phase it is suspended at, and tracks
every watch subscription ever created by `watchPositionAsync` that has not
been removed by `subscription.remove()`. -/

/-- The suspension point an in-flight `startRun` or `resumeRun` invocation
is parked at: awaiting `requestForegroundPermissionsAsync` (inside
`requestLocationPermission`), awaiting `getCurrentPositionAsync`
(`startRun` only), or awaiting `watchPositionAsync`. -/
inductive Phase
  | startAwaitPerm
  | startAwaitPos
  | startAwaitWatch
  | resumeAwaitPerm
  | resumeAwaitWatch
deriving DecidableEq, Repr

/-- The screen state together with the in-flight asynchronous invocations
(`tasks`, in spawn order) and the bookkeeping of live watch subscriptions:
`activeSubs` lists the ids handed out by `watchPositionAsync` that have not
been removed, `nextSubId` is the next fresh id.  `isRequestingPerms`
mirrors the flag that disables the Start button while
`requestLocationPermission` is pending. -/
structure AsyncState where
  status : TrackerStatus
  routeCoords : List LatLng
  elapsedSec : ℕ
  distanceMeters : ℝ
  initialRegion : Option Region
  watchSub : Option ℕ
  timerOn : Bool
  isRequestingPerms : Bool
  tasks : List Phase
  activeSubs : List ℕ
  nextSubId : ℕ

/-- The initial screen state: everything idle and empty. -/
def asyncInit : AsyncState :=
  { status := TrackerStatus.idle
    routeCoords := []
    elapsedSec := 0
    distanceMeters := 0
    initialRegion := none
    watchSub := none
    timerOn := false
    isRequestingPerms := false
    tasks := []
    activeSubs := []
    nextSubId := 0 }

/-- Helper `stopLocationUpdates` in the async model: `watchSubRef.current.remove()`
unregisters exactly the subscription currently held by the ref (if any) and
nulls the ref. -/
def removeWatchA (s : AsyncState) : AsyncState :=
  match s.watchSub with
  | none => s
  | some i => { s with watchSub := none, activeSubs := s.activeSubs.erase i }

/-- Pressing the Start button (rendered only in status `idle`, disabled
while `isRequestingPerms`): the synchronous prefix of `startRun` up to the
first `await` — `requestLocationPermission` sets `isRequestingPerms` and
suspends on the permission prompt. -/
def pressStartA (s : AsyncState) : AsyncState :=
  { s with isRequestingPerms := true,
           tasks := s.tasks ++ [Phase.startAwaitPerm] }

/-- The permission promise of the in-flight invocation at index `i`
resolves as granted: the `finally` clears `isRequestingPerms` and the
invocation proceeds to its next `await` (`getCurrentPositionAsync` for
`startRun`, `watchPositionAsync` for `resumeRun`). -/
def permGrantedA (i : ℕ) (next : Phase) (s : AsyncState) : AsyncState :=
  { s with isRequestingPerms := false, tasks := s.tasks.set i next }

/-- The permission promise of the invocation at index `i` resolves as
denied: the `finally` clears `isRequestingPerms` and the invocation
returns (`if (!ok) return`). -/
def permDeniedA (i : ℕ) (s : AsyncState) : AsyncState :=
  { s with isRequestingPerms := false, tasks := s.tasks.eraseIdx i }

/-- Resolution of `getCurrentPositionAsync` of the `startRun` invocation at index `i`
resolves with coordinate `c`: `setRouteCoords([firstCoord])` and
`setInitialRegion({..., latitudeDelta: 0.01, longitudeDelta: 0.01})`, then
the invocation suspends on `watchPositionAsync`. -/
def posResolvedA (i : ℕ) (c : LatLng) (s : AsyncState) : AsyncState :=
  { s with routeCoords := [c]
           initialRegion := some ⟨c.latitude, c.longitude, 0.01, 0.01⟩
           tasks := s.tasks.set i Phase.startAwaitWatch }

/-- Resolution of `watchPositionAsync` of the invocation at index `i` resolves: a fresh
subscription is registered, `watchSubRef.current = sub` overwrites the ref
WITHOUT removing any subscription it previously held (the source has no
`stopLocationUpdates()` on this path), then `setStatus("running")` and
`startTimer()` (which clears any previous interval before installing the
new one, so the timer flag stays a single flag). -/
def watchResolvedA (i : ℕ) (s : AsyncState) : AsyncState :=
  { s with watchSub := some s.nextSubId
           activeSubs := s.nextSubId :: s.activeSubs
           nextSubId := s.nextSubId + 1
           status := TrackerStatus.running
           timerOn := true
           tasks := s.tasks.eraseIdx i }

/-- Pressing the Resume button (rendered only in status `paused`, with no
`disabled` guard): the synchronous prefix of `resumeRun`, suspending on the
permission prompt. -/
def pressResumeA (s : AsyncState) : AsyncState :=
  { s with isRequestingPerms := true,
           tasks := s.tasks ++ [Phase.resumeAwaitPerm] }

/-- Handler `pauseRun`, atomically: `stopLocationUpdates()`, `clearTimer()`,
`setStatus("paused")`. -/
def pressPauseA (s : AsyncState) : AsyncState :=
  { removeWatchA s with timerOn := false, status := TrackerStatus.paused }

/-- Helper `resetSession` in the async model. -/
def resetSessionA (s : AsyncState) : AsyncState :=
  { s with status := TrackerStatus.idle
           routeCoords := []
           elapsedSec := 0
           distanceMeters := 0
           initialRegion := none }

/-- Handler `stopRun` in the async model (run-record persistence is carried by the
big-step `stopRun` above; here only status, subscription and timer effects
matter): a no-op reset when idle, otherwise remove subscription and timer
and reset — rejection, Discard and Save all end in `resetSession()`. -/
noncomputable def pressStopA (s : AsyncState) : AsyncState :=
  if s.status = TrackerStatus.idle then resetSessionA s
  else resetSessionA { removeWatchA s with timerOn := false }

/-- The unmount cleanup effect (lines 265-270): `stopLocationUpdates()` and
`clearTimer()`. -/
def unmountA (s : AsyncState) : AsyncState :=
  { removeWatchA s with timerOn := false }

/-- A tick of the interval timer in the async model. -/
def tickA (s : AsyncState) : AsyncState :=
  if s.timerOn then { s with elapsedSec := s.elapsedSec + 1 } else s

/-- One scheduling step of the single-threaded event loop: a button press
(guarded by what the UI renders), the resolution of the pending promise of
one in-flight invocation, a timer tick, or unmount. -/
inductive Step : AsyncState → AsyncState → Prop
  | pressStart (s : AsyncState) :
      s.status = TrackerStatus.idle → s.isRequestingPerms = false →
      Step s (pressStartA s)
  | startPermGranted (s : AsyncState) (i : ℕ) :
      s.tasks[i]? = some Phase.startAwaitPerm →
      Step s (permGrantedA i Phase.startAwaitPos s)
  | startPermDenied (s : AsyncState) (i : ℕ) :
      s.tasks[i]? = some Phase.startAwaitPerm →
      Step s (permDeniedA i s)
  | startPosResolved (s : AsyncState) (i : ℕ) (c : LatLng) :
      s.tasks[i]? = some Phase.startAwaitPos →
      Step s (posResolvedA i c s)
  | startWatchResolved (s : AsyncState) (i : ℕ) :
      s.tasks[i]? = some Phase.startAwaitWatch →
      Step s (watchResolvedA i s)
  | pressResume (s : AsyncState) :
      s.status = TrackerStatus.paused →
      Step s (pressResumeA s)
  | resumePermGranted (s : AsyncState) (i : ℕ) :
      s.tasks[i]? = some Phase.resumeAwaitPerm →
      Step s (permGrantedA i Phase.resumeAwaitWatch s)
  | resumePermDenied (s : AsyncState) (i : ℕ) :
      s.tasks[i]? = some Phase.resumeAwaitPerm →
      Step s (permDeniedA i s)
  | resumeWatchResolved (s : AsyncState) (i : ℕ) :
      s.tasks[i]? = some Phase.resumeAwaitWatch →
      Step s (watchResolvedA i s)
  | pressPause (s : AsyncState) :
      s.status = TrackerStatus.running →
      Step s (pressPauseA s)
  | pressStop (s : AsyncState) :
      s.status = TrackerStatus.running ∨ s.status = TrackerStatus.paused →
      Step s (pressStopA s)
  | timerTick (s : AsyncState) :
      Step s (tickA s)
  | unmount (s : AsyncState) :
      Step s (unmountA s)

/-- Reachability of a screen state from the initial state through any
interleaving of scheduling steps. -/
def ReachableA (s : AsyncState) : Prop :=
  Relation.ReflTransGen Step asyncInit s

end Tracker

namespace Tracker

open Real

open Classical

/-- A sanity check that `atan2 0 1 = 0`, matching `Math.atan2(0, 1)`. -/
theorem atan2_zero_one : atan2 0 1 = 0 := by
  simp [atan2]

/-- On the right half plane presented as `(sin x, cos x)` with
`|x| < π/2`, `atan2` recovers the angle. -/
theorem atan2_sin_cos (x : ℝ) (h1 : -(π / 2) < x) (h2 : x < π / 2) :
    atan2 (Real.sin x) (Real.cos x) = x := by
  have hc : 0 < Real.cos x := Real.cos_pos_of_mem_Ioo ⟨h1, h2⟩
  rw [atan2, if_pos hc, ← Real.tan_eq_sin_div_cos, Real.arctan_tan h1 h2]

/-- The haversine distance from a point to itself is zero. -/
theorem haversineMeters_self (p : LatLng) : haversineMeters p p = 0 := by
  simp [haversineMeters, toRad, atan2]

/-- The source's `haversineMeters` computes exactly the haversine formula
as the specification states it. -/
theorem haversineMeters_eq_spec (a b : LatLng) :
    haversineMeters a b = haversineSpecFormula a b := by
  simp only [haversineMeters, haversineSpecFormula, pow_two]
  ring_nf

/-- One degree of longitude on the equator: the code returns exactly
`R * π / 180` meters. -/
theorem haversineMeters_equator_degree :
    haversineMeters ⟨0, 0⟩ ⟨0, 1⟩ = 6371000 * (π / 180) := by
  have hx0 : (0 : ℝ) ≤ π / 360 := by positivity
  have hxlt : π / 360 < π / 2 := by
    have := Real.pi_pos
    linarith
  have hxgt : -(π / 2) < π / 360 := by
    have := Real.pi_pos
    linarith
  have hsin : 0 ≤ Real.sin (π / 360) :=
    Real.sin_nonneg_of_nonneg_of_le_pi hx0 (by linarith [Real.pi_pos])
  have hcos : 0 ≤ Real.cos (π / 360) :=
    le_of_lt (Real.cos_pos_of_mem_Ioo ⟨hxgt, hxlt⟩)
  simp only [haversineMeters, toRad]
  have e1 : ((1 : ℝ) - 0) * π / 180 / 2 = π / 360 := by ring
  have e0 : ((0 : ℝ) - 0) * π / 180 / 2 = 0 := by ring
  have e00 : (0 : ℝ) * π / 180 = 0 := by ring
  rw [e1, e0, e00, Real.sin_zero, Real.cos_zero]
  have ec : (0 : ℝ) * 0 + 1 * 1 * Real.sin (π / 360) * Real.sin (π / 360) =
      Real.sin (π / 360) ^ 2 := by ring
  rw [ec, Real.sqrt_sq hsin, ← Real.cos_sq', Real.sqrt_sq hcos,
    atan2_sin_cos (π / 360) hxgt hxlt]
  ring

/-- C3: `haversineMeters` implements the spec's haversine formula with
`R = 6,371,000` m; it vanishes on equal points, and one degree of
longitude at the equator comes out within 1% of 111,195 meters. -/
theorem haversine_formula_correct :
    (∀ a b : LatLng, haversineMeters a b = haversineSpecFormula a b) ∧
    (∀ p : LatLng, haversineMeters p p = 0) ∧
    |haversineMeters ⟨0, 0⟩ ⟨0, 1⟩ - 111195| ≤ 111195 / 100 := by
  refine ⟨haversineMeters_eq_spec, haversineMeters_self, ?_⟩
  rw [haversineMeters_equator_degree, abs_le]
  constructor
  · linarith [Real.pi_gt_d2]
  · linarith [Real.pi_lt_d2]

/-- C10: `haversineMeters` is commutative: swapping the endpoints negates
the latitude and longitude differences, which only occur inside squared
sines, and the two cosine factors commute. -/
theorem haversineMeters_comm (a b : LatLng) :
    haversineMeters a b = haversineMeters b a := by
  simp only [haversineMeters, toRad]
  have e1 : (a.latitude - b.latitude) * π / 180 / 2 =
      -((b.latitude - a.latitude) * π / 180 / 2) := by ring
  have e2 : (a.longitude - b.longitude) * π / 180 / 2 =
      -((b.longitude - a.longitude) * π / 180 / 2) := by ring
  have hc : Real.sin ((b.latitude - a.latitude) * π / 180 / 2) *
        Real.sin ((b.latitude - a.latitude) * π / 180 / 2) +
        Real.cos (a.latitude * π / 180) * Real.cos (b.latitude * π / 180) *
          Real.sin ((b.longitude - a.longitude) * π / 180 / 2) *
          Real.sin ((b.longitude - a.longitude) * π / 180 / 2) =
      Real.sin ((a.latitude - b.latitude) * π / 180 / 2) *
        Real.sin ((a.latitude - b.latitude) * π / 180 / 2) +
        Real.cos (b.latitude * π / 180) * Real.cos (a.latitude * π / 180) *
          Real.sin ((a.longitude - b.longitude) * π / 180 / 2) *
          Real.sin ((a.longitude - b.longitude) * π / 180 / 2) := by
    rw [e1, e2, Real.sin_neg, Real.sin_neg]
    ring
  rw [hc]

/-- A single sampler callback never decreases the accumulated distance:
the callback either leaves the distance untouched (empty route, or
increment not strictly positive) or adds a strictly positive increment. -/
theorem processCallback_snd_le (s : List LatLng × ℝ) (c : LatLng) :
    s.2 ≤ (processCallback s c).2 := by
  rcases h : s.1.getLast? with _ | last
  · simp [processCallback, h]
  · simp only [processCallback, h]
    split_ifs with hpos
    · linarith
    · exact le_refl _

/-- C1: during a running session each sampler callback only ever grows
`distanceMeters`: the distance after processing any single callback is at
least the distance before it, hence across any callback sequence the
distance after callback `i+1` is at least the distance after callback `i`
(prefix folds of the callback are monotone in the prefix length). -/
theorem distanceMeters_monotone :
    (∀ (s : List LatLng × ℝ) (c : LatLng), s.2 ≤ (processCallback s c).2) ∧
    (∀ (s : List LatLng × ℝ) (cs : List LatLng) (i : ℕ),
      (List.foldl processCallback s (List.take i cs)).2 ≤
        (List.foldl processCallback s (List.take (i + 1) cs)).2) := by
  refine ⟨processCallback_snd_le, ?_⟩
  intro s cs i
  rw [List.take_succ, List.foldl_append]
  rcases h : cs[i]? with _ | c
  · simp
  · simp only [Option.toList_some, List.foldl_cons, List.foldl_nil]
    exact processCallback_snd_le _ _

/-- C2: a sampler callback on an empty route makes the new point the sole
element and leaves the distance unchanged; on a non-empty route the point
is appended unconditionally, the increment (haversine distance from the
last point) is added exactly when it is strictly positive, and a
non-positive increment leaves the distance unchanged. -/
theorem processCallback_spec (route : List LatLng) (dist : ℝ) (c : LatLng) :
    (route = [] → processCallback (route, dist) c = ([c], dist)) ∧
    (processCallback (route, dist) c).1 = route ++ [c] ∧
    (∀ h : route ≠ [],
      0 < haversineMeters (route.getLast h) c →
        (processCallback (route, dist) c).2 =
          dist + haversineMeters (route.getLast h) c) ∧
    (∀ h : route ≠ [],
      haversineMeters (route.getLast h) c ≤ 0 →
        (processCallback (route, dist) c).2 = dist) := by
  refine ⟨?_, ?_, ?_, ?_⟩
  · intro h
    subst h
    simp [processCallback]
  · rcases h : route.getLast? with _ | last
    · rw [List.getLast?_eq_none_iff] at h
      subst h
      simp [processCallback]
    · simp [processCallback, h]
  · intro h hpos
    simp only [processCallback, List.getLast?_eq_getLast route h]
    rw [if_pos hpos]
  · intro h hnonpos
    simp only [processCallback, List.getLast?_eq_getLast route h]
    rw [if_neg (not_lt.mpr hnonpos)]

/-- Witness for C2: on the empty route the point `(0,0)` becomes the sole
element with distance kept at 7; appending the same point `(0,0)` to the
route `[(0,0)]` appends it (length grows) while the zero increment leaves
the distance at 5. -/
theorem processCallback_spec_witness :
    processCallback ([], (7 : ℝ)) ⟨0, 0⟩ = ([⟨0, 0⟩], 7) ∧
    (processCallback ([⟨0, 0⟩], (5 : ℝ)) ⟨0, 0⟩).1 = [⟨0, 0⟩] ++ [⟨0, 0⟩] ∧
    (processCallback ([⟨0, 0⟩], (5 : ℝ)) ⟨0, 0⟩).2 = 5 := by
  have hne : ([(⟨0, 0⟩ : LatLng)]) ≠ ([] : List LatLng) := by simp
  have hlast : ([(⟨0, 0⟩ : LatLng)]).getLast hne = ⟨0, 0⟩ := rfl
  have hz : haversineMeters (([(⟨0, 0⟩ : LatLng)]).getLast hne) ⟨0, 0⟩ ≤ 0 := by
    rw [hlast, haversineMeters_self]
  exact ⟨(processCallback_spec [] 7 ⟨0, 0⟩).1 rfl,
    (processCallback_spec [⟨0, 0⟩] 5 ⟨0, 0⟩).2.1,
    (processCallback_spec [⟨0, 0⟩] 5 ⟨0, 0⟩).2.2.2 hne hz⟩

/-- C7: when the permission request does not return granted, `startRun`
and `resumeRun` abort with the screen state completely unchanged — in
particular status, route, distance and elapsed time keep their values, no
subscription is stored and no timer is started. -/
theorem permission_denied_aborts :
    (∀ (current : LatLng) (subId : ℕ) (s : TrackerState),
      startRun false current subId s = s) ∧
    (∀ (subId : ℕ) (s : TrackerState), resumeRun false subId s = s) := by
  constructor
  · intro current subId s
    rfl
  · intro subId s
    rfl

/-- C4: stopping a running or paused session whose route has fewer than 2
points or whose distance is below 10 meters rejects the run: the run
collection is untouched and the session resets to idle with empty route
and zeroed distance and elapsed time. -/
theorem stopRun_rejects_short (s : TrackerState) (save : Bool)
    (idStr dateISO : String)
    (hst : s.status = TrackerStatus.running ∨ s.status = TrackerStatus.paused)
    (hshort : s.routeCoords.length < 2 ∨ s.distanceMeters < 10) :
    (stopRun save idStr dateISO s).runs = s.runs ∧
    (stopRun save idStr dateISO s).status = TrackerStatus.idle ∧
    (stopRun save idStr dateISO s).routeCoords = [] ∧
    (stopRun save idStr dateISO s).distanceMeters = 0 ∧
    (stopRun save idStr dateISO s).elapsedSec = 0 := by
  have hnidle : ¬ s.status = TrackerStatus.idle := by
    rcases hst with h | h <;> rw [h] <;> simp
  have hcond : ¬ 1 < (clearTimer (stopLocationUpdates s)).routeCoords.length ∨
      (clearTimer (stopLocationUpdates s)).distanceMeters < 10 := by
    rcases hshort with h | h
    · left
      show ¬ 1 < s.routeCoords.length
      omega
    · right
      exact h
  unfold stopRun
  rw [if_neg hnidle, if_pos hcond]
  exact ⟨rfl, rfl, rfl, rfl, rfl⟩

/-- Witness for C4: a running session with exactly 2 route points,
`distanceMeters = 9`, 30 seconds elapsed and one previously saved run is
rejected on stop: the collection still holds only that previous run and
the session resets. -/
theorem stopRun_rejects_short_witness :
    (stopRun true "id9" "date9"
        ⟨TrackerStatus.running, [⟨0, 0⟩, ⟨0, 1⟩], 30, 9, none, some 0, true,
          [⟨"r0", "d0", 100, 10⟩]⟩).runs = [⟨"r0", "d0", 100, 10⟩] ∧
    (stopRun true "id9" "date9"
        ⟨TrackerStatus.running, [⟨0, 0⟩, ⟨0, 1⟩], 30, 9, none, some 0, true,
          [⟨"r0", "d0", 100, 10⟩]⟩).status = TrackerStatus.idle ∧
    (stopRun true "id9" "date9"
        ⟨TrackerStatus.running, [⟨0, 0⟩, ⟨0, 1⟩], 30, 9, none, some 0, true,
          [⟨"r0", "d0", 100, 10⟩]⟩).routeCoords = [] ∧
    (stopRun true "id9" "date9"
        ⟨TrackerStatus.running, [⟨0, 0⟩, ⟨0, 1⟩], 30, 9, none, some 0, true,
          [⟨"r0", "d0", 100, 10⟩]⟩).distanceMeters = 0 ∧
    (stopRun true "id9" "date9"
        ⟨TrackerStatus.running, [⟨0, 0⟩, ⟨0, 1⟩], 30, 9, none, some 0, true,
          [⟨"r0", "d0", 100, 10⟩]⟩).elapsedSec = 0 :=
  stopRun_rejects_short _ true "id9" "date9" (Or.inl rfl)
    (Or.inr (by norm_num))

/-- Evaluation scheme for `formatPace`: once the floor of the minutes and
the rounded remainder seconds are known, the output is the two padded
decimal renderings joined by ":". -/
theorem formatPace_eval (x : ℝ) (m s : ℤ) (hm : ⌊x * 60 / 60⌋ = m)
    (hs : round (jsMod (x * 60) 60) = s) :
    formatPace x = pad2 (toString m) ++ ":" ++ pad2 (toString s) := by
  simp only [formatPace]
  rw [hm, hs]

/-- The pace of the spec's save round-trip example: 1500 m in 600 s is
`(600/60)/1.5` minutes per kilometer, exactly `20/3`. -/
theorem paceMinPerKm_1500_600 : paceMinPerKm 1500 600 = 20 / 3 := by
  rw [paceMinPerKm]
  norm_num

/-- Function `formatPace` renders `20/3` minutes per kilometer as "06:40". -/
theorem formatPace_20_3 : formatPace (20 / 3) = "06:40" := by
  have hm : ⌊(20 : ℝ) / 3 * 60 / 60⌋ = 6 := by
    norm_num
  have htr : jsTrunc ((20 : ℝ) / 3 * 60 / 60) = 6 := by
    rw [jsTrunc, if_pos (by norm_num : (0 : ℝ) ≤ 20 / 3 * 60 / 60)]
    norm_num
  have hs : round (jsMod ((20 : ℝ) / 3 * 60) 60) = 40 := by
    rw [jsMod, htr, round_eq]
    norm_num
  rw [formatPace_eval (20 / 3) 6 40 hm hs]
  rfl

/-- C5: a valid stop followed by Save prepends to the run collection a
`Run` record carrying the supplied id and timestamp and the session's
final `distanceMeters` and `elapsedSec` (as `durationSec`), and resets the
session; with `distanceMeters = 1500` and `elapsedSeconds = 600` the code's
pace derivation gives `(600/60)/1.5 = 20/3 ≈ 6.667` minutes per
kilometer, formatted by `formatPace` as "06:40". -/
theorem stopRun_save_roundtrip (s : TrackerState) (idStr dateISO : String)
    (hst : s.status = TrackerStatus.running ∨ s.status = TrackerStatus.paused)
    (hroute : 1 < s.routeCoords.length)
    (hdist : ¬ s.distanceMeters < 10) :
    (stopRun true idStr dateISO s).runs =
      ⟨idStr, dateISO, s.distanceMeters, s.elapsedSec⟩ :: s.runs ∧
    (stopRun true idStr dateISO s).status = TrackerStatus.idle ∧
    paceMinPerKm 1500 600 = 600 / 60 / (1500 / 1000) ∧
    |paceMinPerKm 1500 600 - 6.667| < 1 / 1000 ∧
    formatPace (paceMinPerKm 1500 600) = "06:40" := by
  have hnidle : ¬ s.status = TrackerStatus.idle := by
    rcases hst with h | h <;> rw [h] <;> simp
  have hcond : ¬ (¬ 1 < (clearTimer (stopLocationUpdates s)).routeCoords.length ∨
      (clearTimer (stopLocationUpdates s)).distanceMeters < 10) := by
    push_neg
    exact ⟨hroute, not_lt.mp hdist⟩
  refine ⟨?_, ?_, ?_, ?_, ?_⟩
  · unfold stopRun
    rw [if_neg hnidle, if_neg hcond, if_pos rfl]
    rfl
  · unfold stopRun
    rw [if_neg hnidle, if_neg hcond, if_pos rfl]
    rfl
  · rw [paceMinPerKm_1500_600]
    norm_num
  · rw [paceMinPerKm_1500_600]
    rw [abs_lt]
    constructor <;> norm_num
  · rw [paceMinPerKm_1500_600, formatPace_20_3]

/-- Witness for C5: stopping and saving a running session with two route
points, `distanceMeters = 1500` and `elapsedSec = 600` produces the run
collection `[⟨"id1500", "date1500", 1500, 600⟩]`, and the pace facts hold
at those numbers. -/
theorem stopRun_save_roundtrip_witness :
    (stopRun true "id1500" "date1500"
        ⟨TrackerStatus.running, [⟨0, 0⟩, ⟨0, 1⟩], 600, 1500, none, some 0,
          true, []⟩).runs = [⟨"id1500", "date1500", 1500, 600⟩] ∧
    formatPace (paceMinPerKm 1500 600) = "06:40" :=
  ⟨(stopRun_save_roundtrip _ "id1500" "date1500" (Or.inl rfl)
      (by norm_num) (by norm_num)).1,
    (stopRun_save_roundtrip
        ⟨TrackerStatus.running, [⟨0, 0⟩, ⟨0, 1⟩], 600, 1500, none, some 0,
          true, []⟩ "id1500" "date1500" (Or.inl rfl)
      (by norm_num) (by norm_num)).2.2.2.2⟩

/-- C6: `elapsedSeconds` counts only timer ticks with an installed timer:
a tick with the timer stopped changes nothing, `pauseRun` stops the timer,
`resumeRun` restarts it, and the spec's scenario — start, 10 ticks, pause,
5 external ticks, resume, 5 ticks — ends with `elapsedSec = 15`. -/
theorem pause_excludes_time :
    (∀ s : TrackerState, s.timerOn = false →
      (tick s).elapsedSec = s.elapsedSec) ∧
    (∀ s : TrackerState, (pauseRun s).timerOn = false) ∧
    (∀ (subId : ℕ) (s : TrackerState),
      (resumeRun true subId s).timerOn = true) ∧
    (tick^[5] (resumeRun true 1 (tick^[5] (pauseRun (tick^[10]
      (startRun true ⟨0, 0⟩ 0 trackerInit)))))).elapsedSec = 15 := by
  refine ⟨?_, ?_, ?_, ?_⟩
  · intro s h
    rw [tick, h]
    rfl
  · intro s
    rfl
  · intro subId s
    rfl
  · rfl

/-- Witness for C6: a tick right after pausing the initial session leaves
`elapsedSec` unchanged. -/
theorem pause_excludes_time_witness :
    (tick (pauseRun trackerInit)).elapsedSec =
      (pauseRun trackerInit).elapsedSec :=
  pause_excludes_time.1 (pauseRun trackerInit) rfl

/-- C9: there is a non-negative pace for which `formatPace` emits a
seconds field of "60" instead of wrapping into the minutes: at
`minPerKm = 5.9958`, `totalSec = 359.748`, the minutes floor is 5 while
`Math.round(59.748) = 60`, so the output is "05:60". -/
theorem formatPace_sixty_seconds :
    (0 : ℝ) ≤ 5.9958 ∧ formatPace (5.9958 : ℝ) = "05:60" := by
  constructor
  · norm_num
  · have hm : ⌊(5.9958 : ℝ) * 60 / 60⌋ = 5 := by norm_num
    have htr : jsTrunc ((5.9958 : ℝ) * 60 / 60) = 5 := by
      rw [jsTrunc, if_pos (by norm_num : (0 : ℝ) ≤ 5.9958 * 60 / 60)]
      norm_num
    have hs : round (jsMod ((5.9958 : ℝ) * 60) 60) = 60 := by
      rw [jsMod, htr, round_eq]
      norm_num
    rw [formatPace_eval 5.9958 5 60 hm hs]
    rfl

/-- C8 fails on the code: pressing Start a second time while the first
`startRun` is still awaiting `getCurrentPositionAsync` (the Start button
is enabled again because `isRequestingPerms` was cleared and the status is
still `idle`) makes both invocations call `watchPositionAsync`; the second
`watchSubRef.current = sub` overwrites the first subscription without
removing it, so a state with two simultaneously active subscriptions is
reachable. -/
theorem double_start_two_subscriptions :
    ∃ s : AsyncState, ReachableA s ∧ 2 ≤ s.activeSubs.length := by
  have h : ReachableA (watchResolvedA 0 (posResolvedA 0 ⟨0, 0⟩
      (watchResolvedA 0 (posResolvedA 0 ⟨0, 0⟩ (permGrantedA 1
        Phase.startAwaitPos (pressStartA (permGrantedA 0
          Phase.startAwaitPos (pressStartA asyncInit)))))))) :=
    Relation.ReflTransGen.head (Step.pressStart asyncInit rfl rfl)
      (Relation.ReflTransGen.head (Step.startPermGranted _ 0 rfl)
      (Relation.ReflTransGen.head (Step.pressStart _ rfl rfl)
      (Relation.ReflTransGen.head (Step.startPermGranted _ 1 rfl)
      (Relation.ReflTransGen.head (Step.startPosResolved _ 0 ⟨0, 0⟩ rfl)
      (Relation.ReflTransGen.head (Step.startWatchResolved _ 0 rfl)
      (Relation.ReflTransGen.head (Step.startPosResolved _ 0 ⟨0, 0⟩ rfl)
      (Relation.ReflTransGen.head (Step.startWatchResolved _ 0 rfl)
      Relation.ReflTransGen.refl)))))))
  exact ⟨_, h, by decide⟩

end Tracker
